import Mathlib

/-!
Shallow embedding of the credit-metering core of the AIGM ai-service
(Python/FastAPI) and proofs about it.

Conventions of the embedding:
* Firestore documents become Lean structures whose fields are `Option`s
  (a missing document field is `none`; Python's `dict.get(k, d)` is
  `Option.getD`).
* The Firestore database is an explicit value threaded through each
  operation; a stateful Python method `f(self, ...)` becomes a pure
  function `f (db : Firestore) ... : result × Firestore`.
* Wall-clock time (`datetime.now`, `time.time()`, `SERVER_TIMESTAMP`)
  becomes an explicit `now : ℚ` parameter, in seconds.
* Machine integers are `Int` (Python ints are unbounded).
* Fallible paths return `Option`/explicit status codes instead of
  raising.
-/

namespace AIGM

/-- Settings of `config/settings.py`: the fields the metering core reads. -/
structure Settings where
  rate_limit_per_minute : Int
  chat_credit_cost : Int
  image_generation_cost : Int
  music_generation_cost : Int
  free_chat_credits_monthly : Int
  free_gen_ai_credits_monthly : Int
deriving DecidableEq

/-- The default values of `Settings` in `config/settings.py`. -/
def defaultSettings : Settings :=
  { rate_limit_per_minute := 5
    chat_credit_cost := 1
    image_generation_cost := 1
    music_generation_cost := 2
    free_chat_credits_monthly := 25
    free_gen_ai_credits_monthly := 25 }

/-- A Firestore `users/{user_id}` document: the fields the metering core
reads or writes.  `none` models an absent field. -/
structure UserDoc where
  chatCredits : Option Int := none
  genAICredits : Option Int := none
  subscriptionTier : Option String := none
  lastCreditReset : Option ℚ := none
  aiAgentTeam : List String := []
  lastChatCreditUsed : Option ℚ := none
  lastGenaiCreditUsed : Option ℚ := none
  lastChatCreditAdded : Option ℚ := none
  lastGenaiCreditAdded : Option ℚ := none
deriving DecidableEq

/-- A Firestore `ai_agents/{agent_id}` document. -/
structure AgentDoc where
  name : Option String := none
  personalityRules : List String := []
  genRules : List String := []
  isPublic : Option Bool := none
  ownerId : Option String := none
deriving DecidableEq

/-- An entry of the `ai_interactions` collection, written by
`FirestoreService.log_ai_interaction` (the free-form `metadata` dict is
omitted: the core never reads it back). -/
structure InteractionDoc where
  userId : String
  agentId : String
  type : String
  tokensUsed : Int
  creditsUsed : Int
  timestamp : ℚ
deriving DecidableEq

/-- An entry of the `credit_transactions` collection, written by
`CreditManager._log_credit_transaction`. -/
structure TransactionDoc where
  userId : String
  creditType : String
  amount : Int
  type : String
  reason : String
  timestamp : ℚ
deriving DecidableEq

/-- The Firestore state seen by the metering core: the `users` and
`ai_agents` document collections plus the two append-only logs. -/
structure Firestore where
  users : String → Option UserDoc
  ai_agents : String → Option AgentDoc
  ai_interactions : List InteractionDoc
  credit_transactions : List TransactionDoc

/-- Point update of the `users` collection (`doc_ref.set` / committed
`transaction.update`). -/
def Firestore.setUser (db : Firestore) (user_id : String) (data : UserDoc) : Firestore :=
  { db with users := fun id => if id = user_id then some data else db.users id }

/-- Model `UserCredits` of `models/schemas.py` (pydantic model). -/
structure UserCredits where
  user_id : String
  chat_credits : Int
  gen_ai_credits : Int
  last_reset : ℚ
  subscription_tier : String
deriving DecidableEq

/-- The `UserCredits(...)` construction performed by
`FirestoreService.get_user_credits` from a user document, including the
pydantic `Field(ge=0)` validation on both balances: a validation failure
raises inside the method's `try`, which returns `None`.  `now` stands for
the `datetime.now(timezone.utc)` default of `lastCreditReset`. -/
def docToUserCredits (s : Settings) (now : ℚ) (user_id : String) (data : UserDoc) :
    Option UserCredits :=
  let chat_credits := data.chatCredits.getD s.free_chat_credits_monthly
  let gen_ai_credits := data.genAICredits.getD s.free_gen_ai_credits_monthly
  if 0 ≤ chat_credits ∧ 0 ≤ gen_ai_credits then
    some { user_id := user_id
           chat_credits := chat_credits
           gen_ai_credits := gen_ai_credits
           last_reset := data.lastCreditReset.getD now
           subscription_tier := data.subscriptionTier.getD "free" }
  else none

/-- Method `FirestoreService.get_user_credits`: `None` when the user document
does not exist (or pydantic validation fails), otherwise the document's
fields with the free-tier monthly amounts as defaults for missing
balance fields. -/
def get_user_credits (s : Settings) (db : Firestore) (now : ℚ) (user_id : String) :
    Option UserCredits :=
  match db.users user_id with
  | none => none
  | some data => docToUserCredits s now user_id data

/-- Method `FirestoreService.deduct_credits`: inside a Firestore transaction,
read the document, take the balance field selected by
`credit_type == "chat"` (missing field read as `0`), refuse when
`current_credits < amount`, otherwise commit `current - amount` together
with a `last*CreditUsed` server timestamp.  Returns the Python
`(success, remaining_credits)` pair plus the resulting store. -/
def deduct_credits (db : Firestore) (now : ℚ) (user_id credit_type : String)
    (amount : Int) : (Bool × Int) × Firestore :=
  match db.users user_id with
  | none => ((false, 0), db)
  | some data =>
      let isChat := credit_type = "chat"
      let current_credits := if isChat then data.chatCredits.getD 0 else data.genAICredits.getD 0
      if current_credits < amount then
        ((false, current_credits), db)
      else
        let new_credits := current_credits - amount
        let data' :=
          if isChat then
            { data with chatCredits := some new_credits, lastChatCreditUsed := some now }
          else
            { data with genAICredits := some new_credits, lastGenaiCreditUsed := some now }
        ((true, new_credits), db.setUser user_id data')

/-- Model `AgentPersonality` of `models/schemas.py`, as constructed by
`FirestoreService.get_agent_personality` (timestamps omitted: the core
never branches on them). -/
structure AgentPersonality where
  agent_id : String
  name : String
  personality_rules : List String
  gen_rules : List String
  is_public : Bool
  owner_id : String
deriving DecidableEq

/-- Method `FirestoreService.get_agent_personality`: `None` when the agent
document does not exist, otherwise its fields with the source's
defaults. -/
def get_agent_personality (db : Firestore) (agent_id : String) : Option AgentPersonality :=
  (db.ai_agents agent_id).map fun data =>
    { agent_id := agent_id
      name := data.name.getD "Unknown Agent"
      personality_rules := data.personalityRules
      gen_rules := data.genRules
      is_public := data.isPublic.getD false
      owner_id := data.ownerId.getD "" }

/-- Method `FirestoreService.check_user_agent_access`: ordered OR over agent
existence, public flag, ownership and the user's `aiAgentTeam` list. -/
def check_user_agent_access (db : Firestore) (user_id agent_id : String) : Bool :=
  match get_agent_personality db agent_id with
  | none => false
  | some agent =>
      if agent.is_public then true
      else if agent.owner_id = user_id then true
      else
        match db.users user_id with
        | some user_data => user_data.aiAgentTeam.contains agent_id
        | none => false

/-- Method `FirestoreService.log_ai_interaction`: appends one document to the
`ai_interactions` collection. -/
def log_ai_interaction (db : Firestore) (now : ℚ)
    (user_id agent_id interaction_type : String)
    (tokens_used credits_used : Int) : Firestore :=
  { db with
    ai_interactions := db.ai_interactions ++
      [{ userId := user_id, agentId := agent_id, type := interaction_type,
         tokensUsed := tokens_used, creditsUsed := credits_used, timestamp := now }] }

/-- Method `CreditManager._log_credit_transaction`: appends one document to the
`credit_transactions` collection. -/
def log_credit_transaction (db : Firestore) (now : ℚ)
    (user_id credit_type : String) (amount : Int)
    (transaction_type reason : String) : Firestore :=
  { db with
    credit_transactions := db.credit_transactions ++
      [{ userId := user_id, creditType := credit_type, amount := amount,
         type := transaction_type, reason := reason, timestamp := now }] }

/-- Method `CreditManager.add_credits`: unconditional addition of `amount` to
the balance field selected by `credit_type == "chat"` (missing field
read as `0`), stamping `last*CreditAdded` and appending a
`credit_transactions` entry of type `"add"`.  Returns the Python `bool`
plus the resulting store. -/
def add_credits (db : Firestore) (now : ℚ) (user_id credit_type : String)
    (amount : Int) (reason : String) : Bool × Firestore :=
  match db.users user_id with
  | none => (false, db)
  | some data =>
      let isChat := credit_type = "chat"
      let current_credits := if isChat then data.chatCredits.getD 0 else data.genAICredits.getD 0
      let new_credits := current_credits + amount
      let data' :=
        if isChat then
          { data with chatCredits := some new_credits, lastChatCreditAdded := some now }
        else
          { data with genAICredits := some new_credits, lastGenaiCreditAdded := some now }
      (true, log_credit_transaction (db.setUser user_id data') now user_id credit_type
        amount "add" reason)

/-- Python `timedelta.days` of a duration of `delta` seconds: floor
division by 86400 (a `timedelta` normalizes so `days` is the floor). -/
def timedeltaDays (delta : ℚ) : Int := Int.floor (delta / 86400)

/-- Method `CreditManager.reset_monthly_credits`: reads the user through
`get_user_credits`; if `(now - last_reset).days >= 30`, writes the
tier-default balances (free tier from settings, premium `100/50`,
pro `500/200`) and `lastCreditReset = now`, returning `True`; otherwise
returns `False` with no write. -/
def reset_monthly_credits (s : Settings) (db : Firestore) (now : ℚ)
    (user_id : String) : Bool × Firestore :=
  match db.users user_id with
  | none => (false, db)
  | some data =>
      match docToUserCredits s now user_id data with
      | none => (false, db)
      | some user_credits =>
          if 30 ≤ timedeltaDays (now - user_credits.last_reset) then
            let new_chat_credits :=
              if user_credits.subscription_tier = "premium" then 100
              else if user_credits.subscription_tier = "pro" then 500
              else s.free_chat_credits_monthly
            let new_gen_credits :=
              if user_credits.subscription_tier = "premium" then 50
              else if user_credits.subscription_tier = "pro" then 200
              else s.free_gen_ai_credits_monthly
            (true, db.setUser user_id
              { data with chatCredits := some new_chat_credits,
                          genAICredits := some new_gen_credits,
                          lastCreditReset := some now })
          else (false, db)

/-- The balance field of a user document selected by a credit type, as
`deduct_credits` reads it: `"chatCredits" if credit_type == "chat" else
"genAICredits"`, with a missing field read as `0`. -/
def UserDoc.selectedBalance (data : UserDoc) (credit_type : String) : Int :=
  if credit_type = "chat" then data.chatCredits.getD 0 else data.genAICredits.getD 0

/-- The per-user request-timestamp deques of `RateLimitMiddleware`
(`self.user_requests : Dict[str, deque]`, defaulting to an empty
deque). -/
structure RateLimitState where
  user_requests : String → List ℚ

/-- Method `RateLimitMiddleware._check_rate_limit`: drop timestamps older than
60 seconds from the front of the user's deque, refuse with
`(False, 0)` when the remaining count reaches the limit, otherwise
append the current time and report `(True, limit - len(queue))`.  The
pruned deque is stored back in both branches (the Python code mutates it
in place). -/
def check_rate_limit (s : Settings) (st : RateLimitState) (user_id : String)
    (current_time : ℚ) : (Bool × Int) × RateLimitState :=
  let window_start := current_time - 60
  let user_queue := (st.user_requests user_id).dropWhile (fun t => decide (t < window_start))
  let request_count : Int := user_queue.length
  if s.rate_limit_per_minute ≤ request_count then
    ((false, 0),
     ⟨fun id => if id = user_id then user_queue else st.user_requests id⟩)
  else
    let q := user_queue ++ [current_time]
    ((true, s.rate_limit_per_minute - q.length),
     ⟨fun id => if id = user_id then q else st.user_requests id⟩)

/-- Enum `MediaType` of `models/schemas.py`. -/
inductive MediaType
  | image
  | music
  | album_art
deriving DecidableEq

/-- Enum `GenerationStatus` of `models/schemas.py` (the synchronous MVP path
only produces `completed` and `failed`). -/
inductive GenerationStatus
  | pending
  | processing
  | completed
  | failed
deriving DecidableEq

/-- Method `StabilityService.get_generation_cost`: image and album art cost
`image_generation_cost`, music costs `music_generation_cost`; the
`duration` argument is accepted and ignored. -/
def get_generation_cost (s : Settings) (media_type : MediaType)
    (duration : Option Int) : Int :=
  match media_type with
  | .image => s.image_generation_cost
  | .music => s.music_generation_cost
  | .album_art => s.image_generation_cost

/-- The `duration` field of the request body built by
`StabilityService.generate_music`: `duration = min(duration, 180)`. -/
def generate_music_request_duration (duration : Int) : Int :=
  min duration 180

/-- The duration argument `generate_content` passes to
`StabilityService.generate_music`: Python `request.duration or 30`
(both `None` and `0` are falsy). -/
def duration_or_default : Option Int → Int
  | none => 30
  | some d => if d = 0 then 30 else d

/-- Model `ChatRequest` of `models/schemas.py`: the fields the metering path
branches on (message content, context and room/server ids are passed
through opaquely). -/
structure ChatRequest where
  user_id : String
  agent_id : String
  message : String
deriving DecidableEq

/-- The steps of the chat metering handler, in the order
`api/chat.py` performs them; used to record an execution trace. -/
inductive ChatStep
  | identityCheck
  | balanceRead
  | accessPolicyCheck
  | agentFetch
  | providerCall
  | deductAttempt
  | interactionLog
deriving DecidableEq

/-- Outcome of `chat_call`: a `ChatResponse` or a raised
`HTTPException` with the given status code. -/
inductive ChatOutcome
  | response (message : String) (agent_id : String) (tokens_used : Int)
      (credits_remaining : Int)
  | httpError (status : Int)
deriving DecidableEq

/-- The `chat_call` handler of `api/chat.py`: identity match,
balance read and pre-check, access-policy check, agent fetch, provider
call, conditional deduct, interaction log.  Rate limiting happens
outside this body: the handler carries the slowapi `@rate_limit_check`
decorator, a per-IP limit from an external library; the per-user
`RateLimitMiddleware` is defined but never installed (`main.py` leaves
`app.add_middleware(RateLimitMiddleware)` commented out).
The external provider (`agent.call`) is a collaborator, modelled by the
`provider` argument: `some (text, tokens)` for a reply, `none` for a
raised provider error (caught by the handler's generic `except`, which
re-raises HTTP 500).  Returns the outcome, the resulting store, and the
trace of steps executed. -/
def chat_call (s : Settings) (db : Firestore) (now : ℚ) (req : ChatRequest)
    (current_user : String) (provider : Option (String × Int)) :
    ChatOutcome × Firestore × List ChatStep :=
  if req.user_id ≠ current_user then
    (.httpError 403, db, [.identityCheck])
  else
    match get_user_credits s db now req.user_id with
    | none => (.httpError 404, db, [.identityCheck, .balanceRead])
    | some user_credits =>
        if user_credits.chat_credits < s.chat_credit_cost then
          (.httpError 402, db, [.identityCheck, .balanceRead])
        else if ¬ check_user_agent_access db req.user_id req.agent_id then
          (.httpError 403, db, [.identityCheck, .balanceRead, .accessPolicyCheck])
        else
          match get_agent_personality db req.agent_id with
          | none =>
              (.httpError 404, db,
               [.identityCheck, .balanceRead, .accessPolicyCheck, .agentFetch])
          | some _ =>
              match provider with
              | none =>
                  (.httpError 500, db,
                   [.identityCheck, .balanceRead, .accessPolicyCheck, .agentFetch,
                    .providerCall])
              | some (response_text, tokens_used) =>
                  let dr := deduct_credits db now req.user_id "chat" s.chat_credit_cost
                  if ¬ dr.1.1 then
                    (.httpError 402, dr.2,
                     [.identityCheck, .balanceRead, .accessPolicyCheck, .agentFetch,
                      .providerCall, .deductAttempt])
                  else
                    (.response response_text req.agent_id tokens_used dr.1.2,
                     log_ai_interaction dr.2 now req.user_id req.agent_id "chat"
                       tokens_used s.chat_credit_cost,
                     [.identityCheck, .balanceRead, .accessPolicyCheck, .agentFetch,
                      .providerCall, .deductAttempt, .interactionLog])

/-- Model `GenerateRequest` of `models/schemas.py`: the fields the metering
path branches on. -/
structure GenerateRequest where
  user_id : String
  prompt : String
  media_type : MediaType
  style : Option String := none
  duration : Option Int := none
deriving DecidableEq

/-- Model `GenerateResponse` of `models/schemas.py` (the `request_id` UUID is
omitted: it is fresh randomness, never read by the core). -/
structure GenerateResponse where
  status : GenerationStatus
  media_url : Option String := none
  media_type : MediaType
  credits_used : Int
  credits_remaining : Int
  error : Option String := none
deriving DecidableEq

/-- Outcome of `generate_content`: a `GenerateResponse` (which reports
provider failure inside a `status = failed` body) or a raised
`HTTPException`. -/
inductive GenOutcome
  | response (r : GenerateResponse)
  | httpError (status : Int)
deriving DecidableEq

/-- The `generate_content` handler of `api/generate.py`: identity match,
cost computation, balance read and pre-check, provider call, deduct,
interaction log.  The provider call is a collaborator: `provider = some
media_url` for a successful generation, `none` for a raised error
(caught by the inner `except`, producing a `failed` response with zero
credits charged).  The provider call takes arbitrarily long and holds no
lock, so the store may be mutated concurrently while it runs:
`db_at_deduct` is the store state when the post-generation deduction
executes (in a sequential run `db_at_deduct = db`). -/
def generate_content (s : Settings) (db : Firestore) (now : ℚ)
    (req : GenerateRequest) (current_user : String)
    (provider : Option String) (db_at_deduct : Firestore) :
    GenOutcome × Firestore :=
  if req.user_id ≠ current_user then
    (.httpError 403, db)
  else
    let credit_cost := get_generation_cost s req.media_type req.duration
    match get_user_credits s db now req.user_id with
    | none => (.httpError 404, db)
    | some user_credits =>
        if user_credits.gen_ai_credits < credit_cost then
          (.httpError 402, db)
        else
          match provider with
          | none =>
              (.response { status := .failed, media_type := req.media_type,
                           credits_used := 0,
                           credits_remaining := user_credits.gen_ai_credits,
                           error := some "generation failed" },
               db_at_deduct)
          | some media_url =>
              let dr := deduct_credits db_at_deduct now req.user_id "genai" credit_cost
              (.response { status := .completed, media_url := some media_url,
                           media_type := req.media_type,
                           credits_used := credit_cost,
                           credits_remaining := dr.1.2 },
               log_ai_interaction dr.2 now req.user_id "stability-ai" "generation"
                 0 credit_cost)

/-- A balance-mutating operation on a user account: the two mutators of
the credit core (`FirestoreService.deduct_credits` and
`CreditManager.add_credits`). -/
inductive CreditOp
  | deduct (credit_type : String) (amount : Int)
  | add (credit_type : String) (amount : Int) (reason : String)
deriving DecidableEq

/-- Apply one `CreditOp` to the store (discarding the reported result). -/
def apply_credit_op (now : ℚ) (user_id : String) (db : Firestore) : CreditOp → Firestore
  | .deduct credit_type amount => (deduct_credits db now user_id credit_type amount).2
  | .add credit_type amount reason =>
      (add_credits db now user_id credit_type amount reason).2

/-- Apply a sequence of `CreditOp`s to the store, in order. -/
def run_credit_ops (db : Firestore) (now : ℚ) (user_id : String)
    (ops : List CreditOp) : Firestore :=
  ops.foldl (apply_credit_op now user_id) db

/-- Every balance stored in the `users` collection is non-negative
(a missing balance field reads as `0`). -/
def balancesNonneg (db : Firestore) : Prop :=
  ∀ user_id data, db.users user_id = some data →
    0 ≤ data.chatCredits.getD 0 ∧ 0 ≤ data.genAICredits.getD 0

/-- An add operation carries a non-negative amount (a quantity of
credits); deducts are unrestricted. -/
def CreditOp.addNonneg : CreditOp → Prop
  | .deduct _ _ => True
  | .add _ amount _ => 0 ≤ amount

/-- The chat-credit allotment `reset_monthly_credits` writes for a
subscription tier: premium `100`, pro `500`, anything else the free
monthly default. -/
def tier_default_chat_credits (s : Settings) (tier : String) : Int :=
  if tier = "premium" then 100 else if tier = "pro" then 500
  else s.free_chat_credits_monthly

/-- The genAI-credit allotment `reset_monthly_credits` writes for a
subscription tier: premium `50`, pro `200`, anything else the free
monthly default. -/
def tier_default_gen_credits (s : Settings) (tier : String) : Int :=
  if tier = "premium" then 50 else if tier = "pro" then 200
  else s.free_gen_ai_credits_monthly

/-- Run a sequence of rate-limit checks for one user at the given
times, collecting the `(allowed, remaining)` results. -/
def run_checks (s : Settings) (st : RateLimitState) (user_id : String) :
    List ℚ → List (Bool × Int) × RateLimitState
  | [] => ([], st)
  | t :: ts =>
      let r := check_rate_limit s st user_id t
      let rest := run_checks s r.2 user_id ts
      (r.1 :: rest.1, rest.2)

/-- Run `n` deduction requests of amount 1 for the same user and credit
type, one after another — the serialization of `n` concurrent
`deduct_credits` calls (each call is a single Firestore transaction, so
any interleaving of the `n` identical requests executes as some serial
order of these atomic steps, and all serial orders are this fold).
Returns `((successes, failures), final store)`. -/
def run_unit_deducts (db : Firestore) (now : ℚ) (user_id credit_type : String) :
    Nat → (Nat × Nat) × Firestore
  | 0 => ((0, 0), db)
  | n + 1 =>
      let prev := run_unit_deducts db now user_id credit_type n
      let dr := deduct_credits prev.2 now user_id credit_type 1
      ((if dr.1.1 then prev.1.1 + 1 else prev.1.1,
        if dr.1.1 then prev.1.2 else prev.1.2 + 1), dr.2)

end AIGM

namespace AIGM

/-- C1: `deduct_credits` is a conditional decrement with no mutation on
failure: for a user document present in the store, if the selected
balance is at least `amount` the call returns `(true, current - amount)`
and commits exactly that balance; otherwise it returns
`(false, current)` as an ordinary outcome and the store is unchanged. -/
theorem deduct_credits_conditional_decrement
    (db : Firestore) (now : ℚ) (user_id credit_type : String) (amount : Int)
    (data : UserDoc) (h : db.users user_id = some data) :
    (amount ≤ data.selectedBalance credit_type →
      (deduct_credits db now user_id credit_type amount).1 =
        (true, data.selectedBalance credit_type - amount) ∧
      (((deduct_credits db now user_id credit_type amount).2.users user_id).map
          (fun d => d.selectedBalance credit_type)) =
        some (data.selectedBalance credit_type - amount)) ∧
    (data.selectedBalance credit_type < amount →
      (deduct_credits db now user_id credit_type amount).1 =
        (false, data.selectedBalance credit_type) ∧
      (deduct_credits db now user_id credit_type amount).2 = db) := by
  by_cases hc : credit_type = "chat"
  · constructor
    · intro hle
      have hnotlt := not_lt.mpr hle
      rw [UserDoc.selectedBalance, if_pos hc] at hnotlt
      simp [deduct_credits, h, hc, hnotlt, Firestore.setUser, UserDoc.selectedBalance]
    · intro hlt
      rw [UserDoc.selectedBalance, if_pos hc] at hlt
      simp [deduct_credits, h, hc, hlt, UserDoc.selectedBalance]
  · constructor
    · intro hle
      have hnotlt := not_lt.mpr hle
      rw [UserDoc.selectedBalance, if_neg hc] at hnotlt
      simp [deduct_credits, h, hc, hnotlt, Firestore.setUser, UserDoc.selectedBalance]
    · intro hlt
      rw [UserDoc.selectedBalance, if_neg hc] at hlt
      simp [deduct_credits, h, hc, hlt, UserDoc.selectedBalance]

/-- Witness for C1 at a concrete store: user `"u1"` with 5 chat credits,
deducting 3 succeeds leaving 2, and deducting 9 from the genai balance
(2 stored) fails leaving the store unchanged. -/
theorem deduct_credits_conditional_decrement_witness :
    let d : UserDoc := { chatCredits := some 5, genAICredits := some 2 }
    let db : Firestore :=
      { users := fun id => if id = "u1" then some d else none
        ai_agents := fun _ => none
        ai_interactions := []
        credit_transactions := [] }
    (deduct_credits db 0 "u1" "chat" 3).1 = (true, 2) ∧
    (deduct_credits db 0 "u1" "genai" 9).1 = (false, 2) := by
  intro d db
  have h1 := deduct_credits_conditional_decrement db 0 "u1" "chat" 3 d rfl
  have h2 := deduct_credits_conditional_decrement db 0 "u1" "genai" 9 d rfl
  exact ⟨(h1.1 (by decide)).1, (h2.2 (by decide)).1⟩


/-- C7: the computed generation cost is `image_generation_cost` for
IMAGE and ALBUM_ART and `music_generation_cost` for MUSIC, and does not
depend on the requested duration; for MUSIC the duration sent to the
provider is clamped to at most 180 seconds (and passed through
unchanged when already within the bound). -/
theorem generation_cost_and_music_clamp
    (s : Settings) (d d' : Option Int) (dur : Int) :
    get_generation_cost s .image d = s.image_generation_cost ∧
    get_generation_cost s .album_art d = s.image_generation_cost ∧
    get_generation_cost s .music d = s.music_generation_cost ∧
    (∀ mt : MediaType, get_generation_cost s mt d = get_generation_cost s mt d') ∧
    generate_music_request_duration dur ≤ 180 ∧
    (dur ≤ 180 → generate_music_request_duration dur = dur) := by
  refine ⟨rfl, rfl, rfl, fun mt => ?_, min_le_right _ _, fun h => min_eq_left h⟩
  cases mt <;> rfl

/-- Witness for C7 at concrete inputs: default settings, durations 30
and 240. -/
theorem generation_cost_and_music_clamp_witness :
    get_generation_cost defaultSettings .music (some 240) = 2 ∧
    generate_music_request_duration 240 = 180 ∧
    generate_music_request_duration 30 = 30 := by
  have h := generation_cost_and_music_clamp defaultSettings (some 240) (some 30) 30
  refine ⟨rfl, by decide, h.2.2.2.2.2 (by decide)⟩

/-- C10: for an existing user document that lacks a stored balance
field, `get_user_credits` reports the free-tier monthly default for that
field while `deduct_credits` reads the same field as `0` and therefore
refuses any positive-amount deduction, leaving the store unchanged —
the two operations disagree on such an account's balance. -/
theorem missing_balance_field_disagreement
    (s : Settings) (db : Firestore) (now : ℚ) (user_id : String)
    (data : UserDoc) (amount : Int)
    (h : db.users user_id = some data) (hamt : 0 < amount) :
    (data.chatCredits = none →
      0 ≤ s.free_chat_credits_monthly →
      0 ≤ data.genAICredits.getD s.free_gen_ai_credits_monthly →
      (get_user_credits s db now user_id).map UserCredits.chat_credits =
        some s.free_chat_credits_monthly ∧
      deduct_credits db now user_id "chat" amount = ((false, 0), db)) ∧
    (data.genAICredits = none →
      0 ≤ s.free_gen_ai_credits_monthly →
      0 ≤ data.chatCredits.getD s.free_chat_credits_monthly →
      (get_user_credits s db now user_id).map UserCredits.gen_ai_credits =
        some s.free_gen_ai_credits_monthly ∧
      deduct_credits db now user_id "genai" amount = ((false, 0), db)) := by
  constructor
  · intro hmiss hv1 hv2
    constructor
    · simp [get_user_credits, docToUserCredits, h, hmiss, hv1, hv2]
    · have hlt : (UserDoc.chatCredits data).getD 0 < amount := by
        rw [hmiss]; exact hamt
      simp [deduct_credits, h, hlt, hmiss, hamt]
  · intro hmiss hv1 hv2
    constructor
    · simp [get_user_credits, docToUserCredits, h, hmiss, hv1, hv2]
    · have hlt : (UserDoc.genAICredits data).getD 0 < amount := by
        rw [hmiss]; exact hamt
      simp [deduct_credits, h, hlt, hmiss, hamt]

/-- Witness for C10: user `"u1"` whose document stores `genAICredits = 3`
but no `chatCredits` field; the getter reports 25 chat credits, the
deduction of 1 chat credit fails reporting 0. -/
theorem missing_balance_field_disagreement_witness :
    let data : UserDoc := { genAICredits := some 3 }
    let db : Firestore :=
      { users := fun id => if id = "u1" then some data else none
        ai_agents := fun _ => none
        ai_interactions := []
        credit_transactions := [] }
    (get_user_credits defaultSettings db 0 "u1").map UserCredits.chat_credits =
      some 25 ∧
    deduct_credits db 0 "u1" "chat" 1 = ((false, 0), db) := by
  intro data db
  exact (missing_balance_field_disagreement defaultSettings db 0 "u1" data 1
    rfl (by decide)).1 rfl (by decide) (by decide)

/-- C2 counterexample: the claim quantifies over every sequence of
deduct and add operations, but `CreditManager.add_credits` adds its
`amount` unconditionally, so a single add of `-1` to a zero balance
leaves the stored `chatCredits` at `-1`, which is negative. -/
theorem negative_balance_reachable_by_add :
    let db : Firestore :=
      { users := fun id => if id = "u1" then some { chatCredits := some 0 } else none
        ai_agents := fun _ => none
        ai_interactions := []
        credit_transactions := [] }
    (((run_credit_ops db 0 "u1" [.add "chat" (-1) "purchase"]).users "u1").map
        (fun d => d.chatCredits.getD 0)) = some (-1) ∧ (-1 : Int) < 0 := by
  exact ⟨rfl, by decide⟩

/-- Equation for `deduct_credits` when the user exists and the balance
is insufficient: failure report, store unchanged. -/
theorem deduct_credits_insufficient_eq (db : Firestore) (now : ℚ)
    (user_id credit_type : String) (amount : Int) (data : UserDoc)
    (hu : db.users user_id = some data)
    (hlt : data.selectedBalance credit_type < amount) :
    deduct_credits db now user_id credit_type amount =
      ((false, data.selectedBalance credit_type), db) := by
  by_cases hc : credit_type = "chat"
  · rw [UserDoc.selectedBalance, if_pos hc] at hlt
    simp [deduct_credits, hu, hc, hlt, UserDoc.selectedBalance]
  · rw [UserDoc.selectedBalance, if_neg hc] at hlt
    simp [deduct_credits, hu, hc, hlt, UserDoc.selectedBalance]

/-- Equation for `deduct_credits` when the user exists and the balance
suffices: success report and the committed document. -/
theorem deduct_credits_success_eq (db : Firestore) (now : ℚ)
    (user_id credit_type : String) (amount : Int) (data : UserDoc)
    (hu : db.users user_id = some data)
    (hle : amount ≤ data.selectedBalance credit_type) :
    deduct_credits db now user_id credit_type amount =
      ((true, data.selectedBalance credit_type - amount),
       db.setUser user_id
         (if credit_type = "chat" then
           { data with chatCredits := some (data.selectedBalance credit_type - amount),
                       lastChatCreditUsed := some now }
          else
           { data with genAICredits := some (data.selectedBalance credit_type - amount),
                       lastGenaiCreditUsed := some now })) := by
  have hnotlt := not_lt.mpr hle
  by_cases hc : credit_type = "chat"
  · rw [UserDoc.selectedBalance, if_pos hc] at hnotlt
    simp [deduct_credits, hu, hc, hnotlt, UserDoc.selectedBalance]
  · rw [UserDoc.selectedBalance, if_neg hc] at hnotlt
    simp [deduct_credits, hu, hc, hnotlt, UserDoc.selectedBalance]

/-- Equation for `add_credits` when the user exists: unconditional
success, updated document, one appended `"add"` transaction. -/
theorem add_credits_eq (db : Firestore) (now : ℚ)
    (user_id credit_type : String) (amount : Int) (reason : String) (data : UserDoc)
    (hu : db.users user_id = some data) :
    add_credits db now user_id credit_type amount reason =
      (true,
       log_credit_transaction
         (db.setUser user_id
           (if credit_type = "chat" then
             { data with chatCredits := some (data.selectedBalance credit_type + amount),
                         lastChatCreditAdded := some now }
            else
             { data with genAICredits := some (data.selectedBalance credit_type + amount),
                         lastGenaiCreditAdded := some now }))
         now user_id credit_type amount "add" reason) := by
  by_cases hc : credit_type = "chat"
  · simp [add_credits, hu, hc, UserDoc.selectedBalance]
  · simp [add_credits, hu, hc, UserDoc.selectedBalance]

/-- A `setUser` write whose document has non-negative balances preserves
`balancesNonneg`. -/
theorem setUser_preserves_nonneg (db : Firestore) (user_id : String)
    (data : UserDoc) (hdb : balancesNonneg db)
    (h1 : 0 ≤ data.chatCredits.getD 0) (h2 : 0 ≤ data.genAICredits.getD 0) :
    balancesNonneg (db.setUser user_id data) := by
  intro uid d hd
  simp only [Firestore.setUser] at hd
  by_cases huid : uid = user_id
  · rw [if_pos huid] at hd
    cases hd
    exact ⟨h1, h2⟩
  · rw [if_neg huid] at hd
    exact hdb uid d hd

/-- Deduction preserves non-negativity: `deduct_credits` preserves non-negativity of every stored balance
(for any amount: the commit only happens when `amount ≤ current`, and
then `current - amount ≥ 0`). -/
theorem deduct_credits_preserves_nonneg (db : Firestore) (now : ℚ)
    (user_id credit_type : String) (amount : Int) (hdb : balancesNonneg db) :
    balancesNonneg (deduct_credits db now user_id credit_type amount).2 := by
  rcases hu : db.users user_id with _ | data
  · have : deduct_credits db now user_id credit_type amount = ((false, 0), db) := by
      simp [deduct_credits, hu]
    rw [this]
    exact hdb
  · rcases lt_or_le (data.selectedBalance credit_type) amount with hlt | hle
    · rw [deduct_credits_insufficient_eq db now user_id credit_type amount data hu hlt]
      exact hdb
    · rw [deduct_credits_success_eq db now user_id credit_type amount data hu hle]
      have hdata := hdb user_id data hu
      by_cases hc : credit_type = "chat"
      · rw [if_pos hc]
        refine setUser_preserves_nonneg db user_id _ hdb ?_ ?_
        · show 0 ≤ data.selectedBalance credit_type - amount
          omega
        · show 0 ≤ data.genAICredits.getD 0
          exact hdata.2
      · rw [if_neg hc]
        refine setUser_preserves_nonneg db user_id _ hdb ?_ ?_
        · show 0 ≤ data.chatCredits.getD 0
          exact hdata.1
        · show 0 ≤ data.selectedBalance credit_type - amount
          omega

/-- Addition with a non-negative amount preserves: `add_credits` with a non-negative amount preserves non-negativity of
every stored balance. -/
theorem add_credits_preserves_nonneg (db : Firestore) (now : ℚ)
    (user_id credit_type : String) (amount : Int) (reason : String)
    (hamt : 0 ≤ amount) (hdb : balancesNonneg db) :
    balancesNonneg (add_credits db now user_id credit_type amount reason).2 := by
  rcases hu : db.users user_id with _ | data
  · have : add_credits db now user_id credit_type amount reason = (false, db) := by
      simp [add_credits, hu]
    rw [this]
    exact hdb
  · rw [add_credits_eq db now user_id credit_type amount reason data hu]
    have hdata := hdb user_id data hu
    have hlog : ∀ db2 : Firestore, balancesNonneg db2 →
        balancesNonneg (log_credit_transaction db2 now user_id credit_type amount
          "add" reason) := by
      intro db2 h2 uid d hd
      exact h2 uid d hd
    refine hlog _ ?_
    by_cases hc : credit_type = "chat"
    · rw [if_pos hc]
      refine setUser_preserves_nonneg db user_id _ hdb ?_ ?_
      · show 0 ≤ data.selectedBalance credit_type + amount
        rw [UserDoc.selectedBalance, if_pos hc]
        have := hdata.1
        omega
      · show 0 ≤ data.genAICredits.getD 0
        exact hdata.2
    · rw [if_neg hc]
      refine setUser_preserves_nonneg db user_id _ hdb ?_ ?_
      · show 0 ≤ data.chatCredits.getD 0
        exact hdata.1
      · show 0 ≤ data.selectedBalance credit_type + amount
        rw [UserDoc.selectedBalance, if_neg hc]
        have := hdata.2
        omega

/-- C2 (amended): starting from a store whose balances are all
non-negative, any sequence of deduct operations (any amounts) and add
operations with non-negative amounts leaves every stored balance — in
particular both credit fields of every user — non-negative. -/
theorem credit_ops_preserve_nonneg (db : Firestore) (now : ℚ) (user_id : String)
    (ops : List CreditOp) (hdb : balancesNonneg db)
    (hops : ∀ op ∈ ops, op.addNonneg) :
    balancesNonneg (run_credit_ops db now user_id ops) := by
  induction ops generalizing db with
  | nil => exact hdb
  | cons op rest ih =>
      have hop := hops op (List.mem_cons_self op rest)
      have hrest : ∀ o ∈ rest, o.addNonneg :=
        fun o ho => hops o (List.mem_cons_of_mem op ho)
      have hstep : balancesNonneg (apply_credit_op now user_id db op) := by
        cases op with
        | deduct ct a => exact deduct_credits_preserves_nonneg db now user_id ct a hdb
        | add ct a r =>
            exact add_credits_preserves_nonneg db now user_id ct a r hop hdb
      exact ih (apply_credit_op now user_id db op) hstep hrest

/-- Witness for the amended C2: a deduct of 3 then an add of 7 on a
store holding one user with balances 5 and 2. -/
theorem credit_ops_preserve_nonneg_witness :
    let db : Firestore :=
      { users := fun id =>
          if id = "u1" then some { chatCredits := some 5, genAICredits := some 2 } else none
        ai_agents := fun _ => none
        ai_interactions := []
        credit_transactions := [] }
    balancesNonneg
      (run_credit_ops db 0 "u1" [.deduct "chat" 3, .add "genai" 7 "purchase"]) := by
  intro db
  refine credit_ops_preserve_nonneg db 0 "u1" _ ?_ ?_
  · intro uid d hd
    by_cases h1 : uid = "u1"
    · subst h1
      simp only [if_pos rfl] at hd
      cases hd
      exact ⟨by decide, by decide⟩
    · simp only [if_neg h1] at hd
      cases hd
  · intro op hop
    rcases List.mem_cons.mp hop with rfl | hop2
    · exact trivial
    · have heq := List.mem_singleton.mp hop2
      subst heq
      show (0 : Int) ≤ 7
      decide

/-- The test `timedeltaDays x ≥ 30` holds exactly when `x` is at least 30 days
(2592000 seconds). -/
theorem thirty_le_timedeltaDays_iff (x : ℚ) :
    30 ≤ timedeltaDays x ↔ (2592000 : ℚ) ≤ x := by
  rw [timedeltaDays, Int.le_floor]
  constructor
  · intro h
    have h2 : (30 : ℚ) ≤ x / 86400 := by exact_mod_cast h
    rw [le_div_iff (by norm_num : (0:ℚ) < 86400)] at h2
    linarith
  · intro h
    have h2 : (30 : ℚ) ≤ x / 86400 := by
      rw [le_div_iff (by norm_num : (0:ℚ) < 86400)]
      linarith
    exact_mod_cast h2

/-- Equation for `reset_monthly_credits` when the user exists, the
stored balances validate, and the 30-day threshold has elapsed. -/
theorem reset_monthly_credits_fire_eq (s : Settings) (db : Firestore) (now : ℚ)
    (user_id : String) (data : UserDoc)
    (h : db.users user_id = some data)
    (hv1 : 0 ≤ data.chatCredits.getD s.free_chat_credits_monthly)
    (hv2 : 0 ≤ data.genAICredits.getD s.free_gen_ai_credits_monthly)
    (helapsed : 30 ≤ timedeltaDays (now - data.lastCreditReset.getD now)) :
    reset_monthly_credits s db now user_id =
      (true, db.setUser user_id
        { data with
          chatCredits :=
            some (tier_default_chat_credits s (data.subscriptionTier.getD "free"))
          genAICredits :=
            some (tier_default_gen_credits s (data.subscriptionTier.getD "free"))
          lastCreditReset := some now }) := by
  simp only [reset_monthly_credits, h, docToUserCredits, if_pos (And.intro hv1 hv2),
    if_pos helapsed, tier_default_chat_credits, tier_default_gen_credits]

/-- Equation for `reset_monthly_credits` when the user exists, the
stored balances validate, and the 30-day threshold has not elapsed. -/
theorem reset_monthly_credits_noop_eq (s : Settings) (db : Firestore) (now : ℚ)
    (user_id : String) (data : UserDoc)
    (h : db.users user_id = some data)
    (hv1 : 0 ≤ data.chatCredits.getD s.free_chat_credits_monthly)
    (hv2 : 0 ≤ data.genAICredits.getD s.free_gen_ai_credits_monthly)
    (helapsed : ¬ 30 ≤ timedeltaDays (now - data.lastCreditReset.getD now)) :
    reset_monthly_credits s db now user_id = (false, db) := by
  simp only [reset_monthly_credits, h, docToUserCredits, if_pos (And.intro hv1 hv2),
    if_neg helapsed]

/-- Equation for `reset_monthly_credits` when the user exists but the
stored balances fail the getter's validation. -/
theorem reset_monthly_credits_invalid_eq (s : Settings) (db : Firestore) (now : ℚ)
    (user_id : String) (data : UserDoc)
    (h : db.users user_id = some data)
    (hv : ¬ (0 ≤ data.chatCredits.getD s.free_chat_credits_monthly ∧
             0 ≤ data.genAICredits.getD s.free_gen_ai_credits_monthly)) :
    reset_monthly_credits s db now user_id = (false, db) := by
  simp only [reset_monthly_credits, h, docToUserCredits, if_neg hv]

/-- C9: given an existing user document (whose stored balances pass the
getter's validation), `reset_monthly_credits` returns `true` exactly
when at least 30 days (2592000 seconds) have elapsed since the account's
`last_reset`; on reset it writes the tier's default allotment for both
balances and sets `lastCreditReset` to `now`, touching no other user;
the three tiers have pairwise distinct default allotments under the
shipped settings; a `false` return changes nothing; and after a
successful reset any repeated call within the next 30 days is a no-op
returning `false` and changing no field. -/
theorem reset_monthly_credits_spec (s : Settings) (db : Firestore) (now : ℚ)
    (user_id : String) (data : UserDoc)
    (h : db.users user_id = some data)
    (hv1 : 0 ≤ data.chatCredits.getD s.free_chat_credits_monthly)
    (hv2 : 0 ≤ data.genAICredits.getD s.free_gen_ai_credits_monthly) :
    ((reset_monthly_credits s db now user_id).1 = true ↔
      (2592000 : ℚ) ≤ now - data.lastCreditReset.getD now) ∧
    ((reset_monthly_credits s db now user_id).1 = true →
      (reset_monthly_credits s db now user_id).2.users user_id =
        some { data with
          chatCredits :=
            some (tier_default_chat_credits s (data.subscriptionTier.getD "free"))
          genAICredits :=
            some (tier_default_gen_credits s (data.subscriptionTier.getD "free"))
          lastCreditReset := some now } ∧
      ∀ uid, uid ≠ user_id →
        (reset_monthly_credits s db now user_id).2.users uid = db.users uid) ∧
    ((tier_default_chat_credits defaultSettings "free",
        tier_default_gen_credits defaultSettings "free") ≠
      (tier_default_chat_credits defaultSettings "pro",
        tier_default_gen_credits defaultSettings "pro") ∧
     (tier_default_chat_credits defaultSettings "free",
        tier_default_gen_credits defaultSettings "free") ≠
      (tier_default_chat_credits defaultSettings "premium",
        tier_default_gen_credits defaultSettings "premium") ∧
     (tier_default_chat_credits defaultSettings "pro",
        tier_default_gen_credits defaultSettings "pro") ≠
      (tier_default_chat_credits defaultSettings "premium",
        tier_default_gen_credits defaultSettings "premium")) ∧
    ((reset_monthly_credits s db now user_id).1 = false →
      (reset_monthly_credits s db now user_id).2 = db) ∧
    ((reset_monthly_credits s db now user_id).1 = true →
      ∀ now2, now2 - now < 2592000 →
        reset_monthly_credits s (reset_monthly_credits s db now user_id).2 now2
            user_id =
          (false, (reset_monthly_credits s db now user_id).2)) := by
  by_cases helapsed : 30 ≤ timedeltaDays (now - data.lastCreditReset.getD now)
  · have heq := reset_monthly_credits_fire_eq s db now user_id data h hv1 hv2 helapsed
    refine ⟨?_, ?_, ⟨by decide, by decide, by decide⟩, ?_, ?_⟩
    · rw [heq]
      simp only [true_iff]
      exact (thirty_le_timedeltaDays_iff _).mp helapsed
    · intro _
      rw [heq]
      constructor
      · simp [Firestore.setUser]
      · intro uid huid
        simp [Firestore.setUser, huid]
    · intro hfalse
      rw [heq] at hfalse
      cases hfalse
    · intro _ now2 hlt
      have hdoc : (reset_monthly_credits s db now user_id).2.users user_id =
          some { data with
            chatCredits :=
              some (tier_default_chat_credits s (data.subscriptionTier.getD "free"))
            genAICredits :=
              some (tier_default_gen_credits s (data.subscriptionTier.getD "free"))
            lastCreditReset := some now } := by
        rw [heq]
        simp [Firestore.setUser]
      have hnotelapsed : ¬ 30 ≤ timedeltaDays (now2 - now) := by
        intro hcon
        have := (thirty_le_timedeltaDays_iff _).mp hcon
        linarith
      by_cases hval2 :
          0 ≤ tier_default_chat_credits s (data.subscriptionTier.getD "free") ∧
          0 ≤ tier_default_gen_credits s (data.subscriptionTier.getD "free")
      · exact reset_monthly_credits_noop_eq s _ now2 user_id _ hdoc
          (by simpa using hval2.1) (by simpa using hval2.2)
          (by simpa using hnotelapsed)
      · exact reset_monthly_credits_invalid_eq s _ now2 user_id _ hdoc
          (by simpa using hval2)
  · have heq := reset_monthly_credits_noop_eq s db now user_id data h hv1 hv2 helapsed
    refine ⟨?_, ?_, ⟨by decide, by decide, by decide⟩, ?_, ?_⟩
    · rw [heq]
      simp only [Bool.false_eq_true, false_iff]
      intro hcon
      exact helapsed ((thirty_le_timedeltaDays_iff _).mpr hcon)
    · intro htrue
      rw [heq] at htrue
      cases htrue
    · intro _
      rw [heq]
    · intro htrue
      rw [heq] at htrue
      cases htrue

/-- Witness for C9: a free-tier user last reset at time 0 with balances
3/4; at time 2678400 (31 days) the reset fires and writes the free
defaults 25/25 with the new reset time. -/
theorem reset_monthly_credits_spec_witness :
    let data : UserDoc :=
      { chatCredits := some 3, genAICredits := some 4, lastCreditReset := some 0 }
    let db : Firestore :=
      { users := fun id => if id = "u1" then some data else none
        ai_agents := fun _ => none
        ai_interactions := []
        credit_transactions := [] }
    (reset_monthly_credits defaultSettings db 2678400 "u1").1 = true ∧
    (reset_monthly_credits defaultSettings db 2678400 "u1").2.users "u1" =
      some { data with chatCredits := some 25, genAICredits := some 25,
                       lastCreditReset := some 2678400 } := by
  intro data db
  have h := reset_monthly_credits_spec defaultSettings db 2678400 "u1" data rfl
    (by decide) (by decide)
  have htrue : (reset_monthly_credits defaultSettings db 2678400 "u1").1 = true :=
    h.1.mpr (by show (2592000 : ℚ) ≤ 2678400 - (0 : ℚ); norm_num)
  refine ⟨htrue, ?_⟩
  have h2 := (h.2.1 htrue).1
  rw [h2]
  have e1 : tier_default_chat_credits defaultSettings
      ((data.subscriptionTier).getD "free") = 25 := by
    rw [tier_default_chat_credits]
    decide
  have e2 : tier_default_gen_credits defaultSettings
      ((data.subscriptionTier).getD "free") = 25 := by
    rw [tier_default_gen_credits]
    decide
  rw [e1, e2]

/-- Pruning with `dropWhile` leaves a constant list untouched when the predicate
rejects its element. -/
theorem dropWhile_replicate_of_false {p : ℚ → Bool} (t : ℚ) (m : Nat)
    (h : p t = false) :
    (List.replicate m t).dropWhile p = List.replicate m t := by
  cases m with
  | zero => rfl
  | succ k =>
      rw [List.replicate_succ, List.dropWhile_cons, h]
      simp

/-- Pruning with `dropWhile` empties a constant list when the predicate accepts its
element. -/
theorem dropWhile_replicate_of_true {p : ℚ → Bool} (t : ℚ) (m : Nat)
    (h : p t = true) :
    (List.replicate m t).dropWhile p = [] := by
  induction m with
  | zero => rfl
  | succ k ih =>
      rw [List.replicate_succ, List.dropWhile_cons, h]
      simp [ih]

/-- The window predicate of `check_rate_limit` rejects the check's own
timestamp. -/
theorem window_pred_self_false (t : ℚ) :
    (fun a => decide (a < t - 60)) t = false := by
  simp only [decide_eq_false_iff_not, not_lt]
  linarith

/-- Filling the window: starting from a queue of `m` copies of `t`, a
run of `k` further checks at the same time `t` succeeds at every step
and leaves `m + k` copies, provided `m + k` stays within the limit. -/
theorem run_checks_fill (s : Settings) (user_id : String) (t : ℚ) :
    ∀ (k m : Nat) (st : RateLimitState),
      st.user_requests user_id = List.replicate m t →
      m + k ≤ s.rate_limit_per_minute.toNat →
      (run_checks s st user_id (List.replicate k t)).1.map Prod.fst =
        List.replicate k true ∧
      (run_checks s st user_id (List.replicate k t)).2.user_requests user_id =
        List.replicate (m + k) t := by
  intro k
  induction k with
  | zero =>
      intro m st hq _
      rw [List.replicate_zero]
      refine ⟨rfl, ?_⟩
      show st.user_requests user_id = List.replicate (m + 0) t
      rw [hq, Nat.add_zero]
  | succ k ih =>
      intro m st hq hmk
      have hlim : (m : Int) < s.rate_limit_per_minute := by omega
      have hpruned : ((st.user_requests user_id).dropWhile
          (fun a => decide (a < t - 60))) = List.replicate m t := by
        rw [hq]
        exact dropWhile_replicate_of_false t m (window_pred_self_false t)
      have hcond : ¬ s.rate_limit_per_minute ≤
          (((st.user_requests user_id).dropWhile
            (fun a => decide (a < t - 60))).length : Int) := by
        rw [hpruned, List.length_replicate]
        omega
      have hcheck : check_rate_limit s st user_id t =
          ((true, s.rate_limit_per_minute -
              ((((st.user_requests user_id).dropWhile
                (fun a => decide (a < t - 60))) ++ [t]).length : Int)),
           ⟨fun id => if id = user_id
              then ((st.user_requests user_id).dropWhile
                (fun a => decide (a < t - 60))) ++ [t]
              else st.user_requests id⟩) := by
        rw [check_rate_limit]
        rw [if_neg hcond]
      have hq2 : (⟨fun id => if id = user_id
            then ((st.user_requests user_id).dropWhile
              (fun a => decide (a < t - 60))) ++ [t]
            else st.user_requests id⟩ : RateLimitState).user_requests user_id =
          List.replicate (m + 1) t := by
        show (if user_id = user_id
            then ((st.user_requests user_id).dropWhile
              (fun a => decide (a < t - 60))) ++ [t]
            else st.user_requests user_id) = List.replicate (m + 1) t
        rw [if_pos rfl, hpruned, ← List.replicate_succ']
      have hrec := ih (m + 1)
        (⟨fun id => if id = user_id
            then ((st.user_requests user_id).dropWhile
              (fun a => decide (a < t - 60))) ++ [t]
            else st.user_requests id⟩ : RateLimitState)
        hq2 (by omega)
      rw [List.replicate_succ]
      rw [run_checks]
      rw [hcheck]
      refine ⟨?_, ?_⟩
      · simp only [List.map_cons, hrec.1, List.replicate_succ]
      · have harith : m + 1 + k = m + (k + 1) := by omega
        rw [← harith]
        exact hrec.2

/-- C8: the sliding-window rate limiter.  General step behavior: after
discarding entries older than 60 seconds from the front of the user's
queue, a check under the limit records the current timestamp and reports
success with `remaining = limit - count - 1`, while a check at the limit
fails with `remaining = 0` and does not extend the window.
Consequently, starting from an empty window, the first `limit` requests
at time `t` all succeed, the `limit+1`-th at the same time fails, and a
request at any time `t2 > t + 60` succeeds again. -/
theorem rate_limit_window_spec (s : Settings) (st0 : RateLimitState)
    (user_id : String) (t t2 : ℚ)
    (hL : 0 < s.rate_limit_per_minute)
    (hempty : st0.user_requests user_id = [])
    (hafter : t + 60 < t2) :
    (∀ (st : RateLimitState) (u : String) (x : ℚ),
      (((((st.user_requests u).dropWhile
            (fun a => decide (a < x - 60))).length : Int) <
          s.rate_limit_per_minute →
        check_rate_limit s st u x =
          ((true, s.rate_limit_per_minute -
              (((((st.user_requests u).dropWhile
                (fun a => decide (a < x - 60))).length : Int)) + 1)),
           ⟨fun id => if id = u
              then ((st.user_requests u).dropWhile
                (fun a => decide (a < x - 60))) ++ [x]
              else st.user_requests id⟩)) ∧
      (s.rate_limit_per_minute ≤
          ((((st.user_requests u).dropWhile
            (fun a => decide (a < x - 60))).length : Int)) →
        check_rate_limit s st u x =
          ((false, 0),
           ⟨fun id => if id = u
              then (st.user_requests u).dropWhile (fun a => decide (a < x - 60))
              else st.user_requests id⟩)))) ∧
    ((run_checks s st0 user_id
        (List.replicate s.rate_limit_per_minute.toNat t)).1.map Prod.fst =
      List.replicate s.rate_limit_per_minute.toNat true) ∧
    ((check_rate_limit s
        (run_checks s st0 user_id (List.replicate s.rate_limit_per_minute.toNat t)).2
        user_id t).1 = (false, 0)) ∧
    ((check_rate_limit s
        (run_checks s st0 user_id (List.replicate s.rate_limit_per_minute.toNat t)).2
        user_id t2).1.1 = true) := by
  have hfill := run_checks_fill s user_id t s.rate_limit_per_minute.toNat 0 st0
    (by rw [hempty]; rfl) (by omega)
  have hq : (run_checks s st0 user_id
      (List.replicate s.rate_limit_per_minute.toNat t)).2.user_requests user_id =
      List.replicate s.rate_limit_per_minute.toNat t := by
    have h2 := hfill.2
    rwa [Nat.zero_add] at h2
  refine ⟨?_, hfill.1, ?_, ?_⟩
  · intro st u x
    constructor
    · intro h
      rw [check_rate_limit, if_neg (not_le.mpr h)]
      simp [List.length_append]
    · intro h
      rw [check_rate_limit, if_pos h]
  · have hpruned : ((run_checks s st0 user_id
        (List.replicate s.rate_limit_per_minute.toNat t)).2.user_requests
          user_id).dropWhile (fun a => decide (a < t - 60)) =
        List.replicate s.rate_limit_per_minute.toNat t := by
      rw [hq]
      exact dropWhile_replicate_of_false t _ (window_pred_self_false t)
    have hcond : s.rate_limit_per_minute ≤
        ((((run_checks s st0 user_id
          (List.replicate s.rate_limit_per_minute.toNat t)).2.user_requests
            user_id).dropWhile (fun a => decide (a < t - 60))).length : Int) := by
      rw [hpruned, List.length_replicate]
      omega
    rw [check_rate_limit, if_pos hcond]
  · have hpred : (fun a => decide (a < t2 - 60)) t = true := by
      simp only [decide_eq_true_eq]
      linarith
    have hpruned : ((run_checks s st0 user_id
        (List.replicate s.rate_limit_per_minute.toNat t)).2.user_requests
          user_id).dropWhile (fun a => decide (a < t2 - 60)) = [] := by
      rw [hq]
      exact dropWhile_replicate_of_true t _ hpred
    have hcond : ¬ s.rate_limit_per_minute ≤
        ((((run_checks s st0 user_id
          (List.replicate s.rate_limit_per_minute.toNat t)).2.user_requests
            user_id).dropWhile (fun a => decide (a < t2 - 60))).length : Int) := by
      rw [hpruned]
      simp
      omega
    rw [check_rate_limit, if_neg hcond]

/-- Witness for C8 at the shipped limit 5, requests at time 0 and a
late request at time 61. -/
theorem rate_limit_window_spec_witness :
    (run_checks defaultSettings ⟨fun _ => []⟩ "u1" (List.replicate 5 0)).1.map
        Prod.fst = List.replicate 5 true ∧
    (check_rate_limit defaultSettings
        (run_checks defaultSettings ⟨fun _ => []⟩ "u1" (List.replicate 5 0)).2
        "u1" 0).1 = (false, 0) ∧
    (check_rate_limit defaultSettings
        (run_checks defaultSettings ⟨fun _ => []⟩ "u1" (List.replicate 5 0)).2
        "u1" 61).1.1 = true := by
  have h := rate_limit_window_spec defaultSettings ⟨fun _ => []⟩ "u1" 0 61
    (by decide) rfl (by norm_num)
  exact ⟨h.2.1, h.2.2.1, h.2.2.2⟩

/-- A failed `deduct_credits` leaves the store untouched. -/
theorem deduct_credits_failure_store (db : Firestore) (now : ℚ)
    (user_id credit_type : String) (amount : Int)
    (h : (deduct_credits db now user_id credit_type amount).1.1 = false) :
    (deduct_credits db now user_id credit_type amount).2 = db := by
  rcases hu : db.users user_id with _ | data
  · simp [deduct_credits, hu]
  · rcases lt_or_le (data.selectedBalance credit_type) amount with hlt | hle
    · rw [deduct_credits_insufficient_eq db now user_id credit_type amount data hu hlt]
    · rw [deduct_credits_success_eq db now user_id credit_type amount data hu hle] at h
      cases h

/-- The operation `deduct_credits` never touches the two append-only logs. -/
theorem deduct_credits_logs_unchanged (db : Firestore) (now : ℚ)
    (user_id credit_type : String) (amount : Int) :
    (deduct_credits db now user_id credit_type amount).2.ai_interactions =
      db.ai_interactions ∧
    (deduct_credits db now user_id credit_type amount).2.credit_transactions =
      db.credit_transactions := by
  rcases hu : db.users user_id with _ | data
  · simp [deduct_credits, hu]
  · rcases lt_or_le (data.selectedBalance credit_type) amount with hlt | hle
    · rw [deduct_credits_insufficient_eq db now user_id credit_type amount data hu hlt]
      exact ⟨rfl, rfl⟩
    · rw [deduct_credits_success_eq db now user_id credit_type amount data hu hle]
      exact ⟨rfl, rfl⟩

/-- C4 counterexample: a fully successful chat metering call (public
agent, enough balance) appends no `credit_transactions` document at
all — in particular not the one `kind=deduct` ledger entry the claim
requires; the one log the handler writes goes to `ai_interactions`. -/
theorem chat_ledger_counterexample :
    let db : Firestore :=
      { users := fun id => if id = "u1" then some { chatCredits := some 5 } else none
        ai_agents := fun id => if id = "a1" then some { isPublic := some true } else none
        ai_interactions := []
        credit_transactions := [] }
    (chat_call defaultSettings db 0 ⟨"u1", "a1", "hello"⟩ "u1" (some ("hi", 7))).1 =
      ChatOutcome.response "hi" "a1" 7 4 ∧
    (chat_call defaultSettings db 0 ⟨"u1", "a1", "hello"⟩ "u1"
        (some ("hi", 7))).2.1.credit_transactions = [] := by
  exact ⟨rfl, rfl⟩

/-- C4 (amended): a successful chat metering call appends no
`CreditTransaction` at all; what it appends is exactly one
`ai_interactions` entry of type `"chat"` whose `creditsUsed` is the
configured chat cost.  A failed provider call (and every other failure)
leaves the store — both logs and all balances — unchanged. -/
theorem chat_metering_ledger (s : Settings) (db : Firestore) (now : ℚ)
    (req : ChatRequest) (current_user : String)
    (provider : Option (String × Int)) :
    (∀ m a tk cr,
      (chat_call s db now req current_user provider).1 =
          ChatOutcome.response m a tk cr →
      (chat_call s db now req current_user provider).2.1.credit_transactions =
        db.credit_transactions ∧
      (chat_call s db now req current_user provider).2.1.ai_interactions =
        db.ai_interactions ++
          [{ userId := req.user_id, agentId := req.agent_id, type := "chat",
             tokensUsed := tk, creditsUsed := s.chat_credit_cost,
             timestamp := now }]) ∧
    (provider = none → (chat_call s db now req current_user provider).2.1 = db) := by
  by_cases h1 : req.user_id ≠ current_user
  · have heq : chat_call s db now req current_user provider =
        (.httpError 403, db, [.identityCheck]) := by
      simp only [chat_call, if_pos h1]
    rw [heq]
    exact ⟨fun m a tk cr hres => (by cases hres), fun _ => rfl⟩
  · rcases hu : get_user_credits s db now req.user_id with _ | uc
    · have heq : chat_call s db now req current_user provider =
          (.httpError 404, db, [.identityCheck, .balanceRead]) := by
        simp only [chat_call, if_neg h1, hu]
      rw [heq]
      exact ⟨fun m a tk cr hres => (by cases hres), fun _ => rfl⟩
    · by_cases h3 : uc.chat_credits < s.chat_credit_cost
      · have heq : chat_call s db now req current_user provider =
            (.httpError 402, db, [.identityCheck, .balanceRead]) := by
          simp only [chat_call, if_neg h1, hu, if_pos h3]
        rw [heq]
        exact ⟨fun m a tk cr hres => (by cases hres), fun _ => rfl⟩
      · by_cases h4 : check_user_agent_access db req.user_id req.agent_id = true
        · rcases hap : get_agent_personality db req.agent_id with _ | ap
          · have heq : chat_call s db now req current_user provider =
                (.httpError 404, db,
                 [.identityCheck, .balanceRead, .accessPolicyCheck, .agentFetch]) := by
              simp only [chat_call, if_neg h1, hu, if_neg h3, h4, not_true_eq_false,
                if_false, hap]
            rw [heq]
            exact ⟨fun m a tk cr hres => (by cases hres), fun _ => rfl⟩
          · rcases provider with _ | pr
            · have heq : chat_call s db now req current_user none =
                  (.httpError 500, db,
                   [.identityCheck, .balanceRead, .accessPolicyCheck, .agentFetch,
                    .providerCall]) := by
                simp only [chat_call, if_neg h1, hu, if_neg h3, h4, not_true_eq_false,
                  if_false, hap]
              rw [heq]
              exact ⟨fun m a tk cr hres => (by cases hres), fun _ => rfl⟩
            · rcases pr with ⟨text, tok⟩
              by_cases h7 : (deduct_credits db now req.user_id "chat"
                  s.chat_credit_cost).1.1 = true
              · have heq : chat_call s db now req current_user (some (text, tok)) =
                    (.response text req.agent_id tok
                      (deduct_credits db now req.user_id "chat"
                        s.chat_credit_cost).1.2,
                     log_ai_interaction
                       (deduct_credits db now req.user_id "chat"
                         s.chat_credit_cost).2 now req.user_id req.agent_id "chat"
                       tok s.chat_credit_cost,
                     [.identityCheck, .balanceRead, .accessPolicyCheck, .agentFetch,
                      .providerCall, .deductAttempt, .interactionLog]) := by
                  simp only [chat_call, if_neg h1, hu, if_neg h3, h4,
                    not_true_eq_false, if_false, hap, h7, not_false_eq_true]
                rw [heq]
                constructor
                · intro m a tk cr hres
                  have hinj := hres
                  simp only [ChatOutcome.response.injEq] at hinj
                  obtain ⟨hm, ha, htk, hcr⟩ := hinj
                  subst htk
                  have hlogs := deduct_credits_logs_unchanged db now req.user_id
                    "chat" s.chat_credit_cost
                  refine ⟨?_, ?_⟩
                  · show (deduct_credits db now req.user_id "chat"
                        s.chat_credit_cost).2.credit_transactions =
                      db.credit_transactions
                    exact hlogs.2
                  · show (deduct_credits db now req.user_id "chat"
                        s.chat_credit_cost).2.ai_interactions ++ _ =
                      db.ai_interactions ++ _
                    rw [hlogs.1]
                · intro hp
                  cases hp
              · have hfail : (deduct_credits db now req.user_id "chat"
                    s.chat_credit_cost).1.1 = false := by
                  revert h7
                  cases (deduct_credits db now req.user_id "chat"
                    s.chat_credit_cost).1.1 <;> simp
                have heq : chat_call s db now req current_user (some (text, tok)) =
                    (.httpError 402,
                     (deduct_credits db now req.user_id "chat" s.chat_credit_cost).2,
                     [.identityCheck, .balanceRead, .accessPolicyCheck, .agentFetch,
                      .providerCall, .deductAttempt]) := by
                  simp only [chat_call, if_neg h1, hu, if_neg h3, h4,
                    not_true_eq_false, if_false, hap, hfail, Bool.false_eq_true,
                    not_false_eq_true, if_true]
                rw [heq]
                constructor
                · intro m a tk cr hres
                  cases hres
                · intro hp
                  cases hp
        · have h4f : check_user_agent_access db req.user_id req.agent_id = false := by
            revert h4
            cases check_user_agent_access db req.user_id req.agent_id <;> simp
          have heq : chat_call s db now req current_user provider =
              (.httpError 403, db,
               [.identityCheck, .balanceRead, .accessPolicyCheck]) := by
            simp only [chat_call, if_neg h1, hu, if_neg h3, h4f,
              Bool.false_eq_true, not_false_eq_true, if_true]
          rw [heq]
          exact ⟨fun m a tk cr hres => (by cases hres), fun _ => rfl⟩

/-- Witness for the amended C4: on the concrete successful call exactly
one `ai_interactions` entry is appended and none to
`credit_transactions`; with a failing provider the store is returned
unchanged. -/
theorem chat_metering_ledger_witness :
    let db : Firestore :=
      { users := fun id => if id = "u1" then some { chatCredits := some 5 } else none
        ai_agents := fun id => if id = "a1" then some { isPublic := some true } else none
        ai_interactions := []
        credit_transactions := [] }
    (chat_call defaultSettings db 0 ⟨"u1", "a1", "hello"⟩ "u1"
        (some ("hi", 7))).2.1.ai_interactions =
      [{ userId := "u1", agentId := "a1", type := "chat", tokensUsed := 7,
         creditsUsed := 1, timestamp := 0 }] ∧
    (chat_call defaultSettings db 0 ⟨"u1", "a1", "hello"⟩ "u1" none).2.1 = db := by
  intro db
  have h := chat_metering_ledger defaultSettings db 0 ⟨"u1", "a1", "hello"⟩ "u1"
    (some ("hi", 7))
  have h2 := chat_metering_ledger defaultSettings db 0 ⟨"u1", "a1", "hello"⟩ "u1" none
  refine ⟨?_, h2.2 rfl⟩
  have ha := (h.1 "hi" "a1" 7 4 rfl).2
  simpa using ha

/-- C5 counterexample: on a concrete request that passes every check,
the handler's executed trace is identity match, then the balance read
and pre-check, and only then the access-policy check — the balance is
read strictly before the access check, contradicting the claimed
ordering. -/
theorem chat_sequencing_counterexample :
    let db : Firestore :=
      { users := fun id => if id = "u1" then some { chatCredits := some 5 } else none
        ai_agents := fun id => if id = "a1" then some { isPublic := some true } else none
        ai_interactions := []
        credit_transactions := [] }
    (chat_call defaultSettings db 0 ⟨"u1", "a1", "hello"⟩ "u1"
        (some ("hi", 7))).2.2 =
      [ChatStep.identityCheck, ChatStep.balanceRead, ChatStep.accessPolicyCheck,
       ChatStep.agentFetch, ChatStep.providerCall, ChatStep.deductAttempt,
       ChatStep.interactionLog] ∧
    ((chat_call defaultSettings db 0 ⟨"u1", "a1", "hello"⟩ "u1"
        (some ("hi", 7))).2.2.indexOf ChatStep.balanceRead <
      (chat_call defaultSettings db 0 ⟨"u1", "a1", "hello"⟩ "u1"
        (some ("hi", 7))).2.2.indexOf ChatStep.accessPolicyCheck) := by
  exact ⟨rfl, by decide⟩

/-- C5 (amended): the chat handler sequences identity match, balance
read with pre-check, access-policy check, agent fetch, provider call,
conditional deduct, interaction log — the balance is read before the
access check, and an access denial fails fast with the store (hence the
balance) unmutated.  The claim's per-user rate-limiter stage does not
run in the program: `main.py` never installs `RateLimitMiddleware`
(the `add_middleware` call is commented out), the only live limit on
the endpoint being the external per-IP slowapi decorator. -/
theorem chat_call_sequencing (s : Settings) (db : Firestore)
    (now : ℚ) (req : ChatRequest) (current_user : String)
    (provider : Option (String × Int)) (uc : UserCredits)
    (hid : req.user_id = current_user)
    (hbal : get_user_credits s db now req.user_id = some uc)
    (hcred : ¬ uc.chat_credits < s.chat_credit_cost) :
    (check_user_agent_access db req.user_id req.agent_id = false →
      chat_call s db now req current_user provider =
        (.httpError 403, db, [.identityCheck, .balanceRead, .accessPolicyCheck])) ∧
    (∀ ap text tok,
      check_user_agent_access db req.user_id req.agent_id = true →
      get_agent_personality db req.agent_id = some ap →
      provider = some (text, tok) →
      (deduct_credits db now req.user_id "chat" s.chat_credit_cost).1.1 = true →
      (chat_call s db now req current_user provider).2.2 =
        [.identityCheck, .balanceRead, .accessPolicyCheck, .agentFetch,
         .providerCall, .deductAttempt, .interactionLog]) := by
  have hnid : ¬ req.user_id ≠ current_user := not_not_intro hid
  constructor
  · intro hdeny
    simp only [chat_call, if_neg hnid, hbal, if_neg hcred, hdeny,
      Bool.false_eq_true, not_false_eq_true, if_true]
  · intro ap text tok haccess hap hp hdeduct
    subst hp
    simp only [chat_call, if_neg hnid, hbal, if_neg hcred, haccess, if_false,
      hap, hdeduct, not_false_eq_true, if_true, not_true_eq_false]

/-- Witness for the amended C5: access denied on a private agent owned
by someone else; the handler returns 403 with the trace showing the
balance read before the access check, and the store unchanged. -/
theorem chat_call_sequencing_witness :
    let db : Firestore :=
      { users := fun id => if id = "u1" then some { chatCredits := some 5 } else none
        ai_agents := fun id =>
          if id = "a1" then some { isPublic := some false, ownerId := some "other" }
          else none
        ai_interactions := []
        credit_transactions := [] }
    chat_call defaultSettings db 0 ⟨"u1", "a1", "hello"⟩ "u1"
        (some ("hi", 7)) =
      (.httpError 403, db, [.identityCheck, .balanceRead, .accessPolicyCheck]) := by
  intro db
  exact (chat_call_sequencing defaultSettings db 0 ⟨"u1", "a1", "hello"⟩
    "u1" (some ("hi", 7))
    { user_id := "u1", chat_credits := 5, gen_ai_credits := 25, last_reset := 0,
      subscription_tier := "free" }
    rfl rfl (by decide)).1 rfl

/-- C3 counterexample: user `"u3"` passes the pre-check with 2 genAI
credits for a music generation costing 2, the provider succeeds, but the
balance was drained concurrently before the deduct (store at deduct time
holds 0); the handler still returns the media — yet it reports
`credits_used = 2` (the full cost), not the zero the claim states. -/
theorem generation_deduct_failure_counterexample :
    let db : Firestore :=
      { users := fun id => if id = "u3" then some { genAICredits := some 2 } else none
        ai_agents := fun _ => none
        ai_interactions := []
        credit_transactions := [] }
    let dbDrained : Firestore :=
      { users := fun id => if id = "u3" then some { genAICredits := some 0 } else none
        ai_agents := fun _ => none
        ai_interactions := []
        credit_transactions := [] }
    let req : GenerateRequest :=
      { user_id := "u3", prompt := "song", media_type := .music,
        duration := some 30 }
    (deduct_credits dbDrained 0 "u3" "genai" 2).1.1 = false ∧
    (generate_content defaultSettings db 0 req "u3" (some "url") dbDrained).1 =
      GenOutcome.response
        { status := .completed, media_url := some "url", media_type := .music,
          credits_used := 2, credits_remaining := 0 } ∧
    (2 : Int) ≠ 0 := by
  exact ⟨rfl, rfl, by decide⟩

/-- C3 (amended): whenever the provider call succeeds but the subsequent
deduction fails, the generation handler still returns the generated
media (`status = completed` with the media URL), but it reports
`credits_used` equal to the full computed cost — not zero — with
`credits_remaining` as reported by the failed deduct; no balance is
mutated and no `credit_transactions` entry is appended (only an
`ai_interactions` entry). -/
theorem generation_lenient_on_deduct_failure (s : Settings)
    (db dbAtDeduct : Firestore) (now : ℚ) (req : GenerateRequest)
    (current_user media_url : String) (uc : UserCredits)
    (hid : req.user_id = current_user)
    (hbal : get_user_credits s db now req.user_id = some uc)
    (hcred : ¬ uc.gen_ai_credits < get_generation_cost s req.media_type req.duration)
    (hfail : (deduct_credits dbAtDeduct now req.user_id "genai"
        (get_generation_cost s req.media_type req.duration)).1.1 = false) :
    (generate_content s db now req current_user (some media_url) dbAtDeduct).1 =
      GenOutcome.response
        { status := .completed, media_url := some media_url,
          media_type := req.media_type,
          credits_used := get_generation_cost s req.media_type req.duration,
          credits_remaining := (deduct_credits dbAtDeduct now req.user_id "genai"
            (get_generation_cost s req.media_type req.duration)).1.2 } ∧
    (generate_content s db now req current_user (some media_url) dbAtDeduct).2.users =
      dbAtDeduct.users ∧
    (generate_content s db now req current_user
        (some media_url) dbAtDeduct).2.credit_transactions =
      dbAtDeduct.credit_transactions := by
  have hnid : ¬ req.user_id ≠ current_user := not_not_intro hid
  have hstore := deduct_credits_failure_store dbAtDeduct now req.user_id "genai"
    (get_generation_cost s req.media_type req.duration) hfail
  have heq : generate_content s db now req current_user (some media_url) dbAtDeduct =
      (GenOutcome.response
        { status := .completed, media_url := some media_url,
          media_type := req.media_type,
          credits_used := get_generation_cost s req.media_type req.duration,
          credits_remaining := (deduct_credits dbAtDeduct now req.user_id "genai"
            (get_generation_cost s req.media_type req.duration)).1.2 },
       log_ai_interaction
         (deduct_credits dbAtDeduct now req.user_id "genai"
           (get_generation_cost s req.media_type req.duration)).2
         now req.user_id "stability-ai" "generation" 0
         (get_generation_cost s req.media_type req.duration)) := by
    simp only [generate_content, if_neg hnid, hbal, if_neg hcred]
  rw [heq]
  refine ⟨rfl, ?_, ?_⟩
  · show (deduct_credits dbAtDeduct now req.user_id "genai"
        (get_generation_cost s req.media_type req.duration)).2.users =
      dbAtDeduct.users
    rw [hstore]
  · show (deduct_credits dbAtDeduct now req.user_id "genai"
        (get_generation_cost s req.media_type req.duration)).2.credit_transactions =
      dbAtDeduct.credit_transactions
    rw [hstore]

/-- Witness for the amended C3 at the concrete drained-balance
scenario. -/
theorem generation_lenient_on_deduct_failure_witness :
    let db : Firestore :=
      { users := fun id => if id = "u3" then some { genAICredits := some 2 } else none
        ai_agents := fun _ => none
        ai_interactions := []
        credit_transactions := [] }
    let dbDrained : Firestore :=
      { users := fun id => if id = "u3" then some { genAICredits := some 0 } else none
        ai_agents := fun _ => none
        ai_interactions := []
        credit_transactions := [] }
    let req : GenerateRequest :=
      { user_id := "u3", prompt := "song", media_type := .music,
        duration := some 30 }
    (generate_content defaultSettings db 0 req "u3" (some "url") dbDrained).1 =
      GenOutcome.response
        { status := .completed, media_url := some "url", media_type := .music,
          credits_used := 2, credits_remaining := 0 } ∧
    (generate_content defaultSettings db 0 req "u3"
        (some "url") dbDrained).2.users = dbDrained.users := by
  intro db dbDrained req
  have h := generation_lenient_on_deduct_failure defaultSettings db dbDrained 0 req
    "u3" "url"
    { user_id := "u3", chat_credits := 25, gen_ai_credits := 2, last_reset := 0,
      subscription_tier := "free" }
    rfl rfl (by decide) rfl
  exact ⟨h.1, h.2.1⟩

/-- Looking up the user just written by `setUser`. -/
theorem setUser_users_self (db : Firestore) (user_id : String) (data : UserDoc) :
    (db.setUser user_id data).users user_id = some data := by
  simp [Firestore.setUser]

/-- The document committed by a successful deduct carries the new value
in the selected balance field. -/
theorem selectedBalance_update (data : UserDoc) (credit_type : String)
    (v : Int) (now : ℚ) :
    ((if credit_type = "chat" then
        { data with chatCredits := some v, lastChatCreditUsed := some now }
      else
        { data with genAICredits := some v,
                    lastGenaiCreditUsed := some now }) : UserDoc).selectedBalance
        credit_type = v := by
  by_cases hc : credit_type = "chat" <;> simp [hc, UserDoc.selectedBalance]

/-- Invariant of a serial run of `m` unit deducts against an account
holding `N`: the first `N` succeed and the rest fail, the stored balance
is `N - min N m`, and the document survives. -/
theorem run_unit_deducts_aux (now : ℚ) (user_id credit_type : String) (N : Nat) :
    ∀ (m : Nat) (db : Firestore) (data : UserDoc),
      db.users user_id = some data →
      data.selectedBalance credit_type = (N : Int) →
      ∃ d2 : UserDoc,
        (run_unit_deducts db now user_id credit_type m).2.users user_id = some d2 ∧
        d2.selectedBalance credit_type = (N : Int) - (min N m : Nat) ∧
        (run_unit_deducts db now user_id credit_type m).1 =
          (min N m, m - min N m) := by
  intro m
  induction m with
  | zero =>
      intro db data h hbal
      refine ⟨data, h, ?_, ?_⟩
      · rw [hbal]
        simp
      · simp [run_unit_deducts]
  | succ m ih =>
      intro db data h hbal
      obtain ⟨d2, hd2, hbal2, hcnt⟩ := ih db data h hbal
      by_cases hlt : m < N
      · have hminm : min N m = m := Nat.min_eq_right (Nat.le_of_lt hlt)
        have hmin1 : min N (m + 1) = m + 1 := Nat.min_eq_right hlt
        have hge : (1 : Int) ≤ d2.selectedBalance credit_type := by
          rw [hbal2, hminm]
          have : (m : Int) < (N : Int) := by exact_mod_cast hlt
          omega
        have hsucc := deduct_credits_success_eq
          (run_unit_deducts db now user_id credit_type m).2 now user_id credit_type
          1 d2 hd2 hge
        refine ⟨(if credit_type = "chat" then
            { d2 with chatCredits := some (d2.selectedBalance credit_type - 1),
                      lastChatCreditUsed := some now }
          else
            { d2 with genAICredits := some (d2.selectedBalance credit_type - 1),
                      lastGenaiCreditUsed := some now }), ?_, ?_, ?_⟩
        · simp only [run_unit_deducts]
          rw [hsucc]
          exact setUser_users_self _ _ _
        · rw [selectedBalance_update, hbal2, hminm, hmin1]
          push_cast
          ring
        · simp only [run_unit_deducts]
          rw [hsucc, hcnt]
          simp only [if_true]
          rw [hminm, hmin1]
          have h0 : m - m = 0 := Nat.sub_self m
          have h1 : m + 1 - (m + 1) = 0 := Nat.sub_self (m + 1)
          rw [h0, h1]
      · have hle : N ≤ m := Nat.le_of_not_lt hlt
        have hminm : min N m = N := Nat.min_eq_left hle
        have hmin1 : min N (m + 1) = N := Nat.min_eq_left (Nat.le_succ_of_le hle)
        have hlt1 : d2.selectedBalance credit_type < 1 := by
          rw [hbal2, hminm]
          omega
        have hfail := deduct_credits_insufficient_eq
          (run_unit_deducts db now user_id credit_type m).2 now user_id credit_type
          1 d2 hd2 hlt1
        refine ⟨d2, ?_, ?_, ?_⟩
        · simp only [run_unit_deducts]
          rw [hfail]
          exact hd2
        · rw [hbal2, hminm, hmin1]
        · simp only [run_unit_deducts]
          rw [hfail, hcnt]
          have harith : m - N ⊓ m + 1 = m + 1 - N ⊓ (m + 1) := by
            rw [hminm, hmin1]
            omega
          simp only [Bool.false_eq_true, if_false]
          rw [hminm, hmin1]
          congr 1
          omega

/-- C6: race safety of the conditional deduction.  Each `deduct_credits`
call runs as one Firestore transaction, so a concurrent burst of `N + K`
identical unit deductions executes as some serial order of these atomic
steps; since all `N + K` requests are identical, every interleaving is
the same `N + K`-fold serial composition.  Starting from a balance of
`N`, exactly `N` of them succeed and `K` report insufficient credits,
and the final stored balance is `0`. -/
theorem race_safety_unit_deducts (db : Firestore) (now : ℚ)
    (user_id credit_type : String) (data : UserDoc) (N K : Nat)
    (h : db.users user_id = some data)
    (hbal : data.selectedBalance credit_type = (N : Int))
    (hK : 0 < K) :
    (run_unit_deducts db now user_id credit_type (N + K)).1 = (N, K) ∧
    ((run_unit_deducts db now user_id credit_type (N + K)).2.users user_id).map
        (fun d => d.selectedBalance credit_type) = some 0 := by
  obtain ⟨d2, hd2, hbal2, hcnt⟩ :=
    run_unit_deducts_aux now user_id credit_type N (N + K) db data h hbal
  have hmin : min N (N + K) = N := Nat.min_eq_left (Nat.le_add_right N K)
  constructor
  · rw [hcnt, hmin]
    have : N + K - N = K := by omega
    rw [this]
  · rw [hd2]
    show some (d2.selectedBalance credit_type) = some 0
    rw [hbal2, hmin]
    simp

/-- Witness for C6: balance 2, three concurrent unit deductions — two
succeed, one fails, final balance 0. -/
theorem race_safety_unit_deducts_witness :
    let db : Firestore :=
      { users := fun id => if id = "u1" then some { chatCredits := some 2 } else none
        ai_agents := fun _ => none
        ai_interactions := []
        credit_transactions := [] }
    (run_unit_deducts db 0 "u1" "chat" 3).1 = (2, 1) ∧
    ((run_unit_deducts db 0 "u1" "chat" 3).2.users "u1").map
        (fun d => d.selectedBalance "chat") = some 0 := by
  intro db
  exact race_safety_unit_deducts db 0 "u1" "chat" { chatCredits := some 2 } 2 1
    rfl (by decide) (by decide)

end AIGM
